import Mathlib

/-!
Shallow embedding of the damped-spring motion engine of the photo-gallery
repository: the `Spring` class (closed-form damped harmonic oscillator
solver) and the `runAnimation` frame loop.

JavaScript numbers are modelled as real numbers; `Math.pow(Math.E, y)` is
`Real.exp y`, `Math.sqrt` is `Real.sqrt`.  Wall-clock reads
(`new Date().getTime()`, `Date.now()`) are modelled by an explicit `now`
argument; the optional parameters of `x`, `dx`, `setEnd`, `done` are passed
explicitly, with the JavaScript falsiness test `if (!t)` modelled as a test
against `0`.
-/

/-- The tolerance constant `EPSILON = 0.001` of the source. -/
noncomputable def EPSILON : ℝ := 0.001

/-- `almostEqual = (a, b) => a > b - EPSILON && a < b + EPSILON`. -/
def almostEqual (a b : ℝ) : Prop := a > b - EPSILON ∧ a < b + EPSILON

/-- `almostZero = a => almostEqual(a, 0)`. -/
def almostZero (a : ℝ) : Prop := almostEqual a 0

/-- The object returned by `Spring._solve`: a pair of closures
`{x: t => ..., dx: t => ...}` over elapsed time in seconds. -/
structure Solution where
  x : ℝ → ℝ
  dx : ℝ → ℝ

/-- The divisor `r * initial` appearing in the critically damped branch of
`Spring._solve` (`const c2 = velocity / (r * initial)` with
`r = -c / (2 * m)`).  In JavaScript the division by this quantity yields
`Infinity`/`NaN` whenever it is zero. -/
noncomputable def critDenominator (m c initial : ℝ) : ℝ :=
  -c / (2 * m) * initial

/-- The exponential rate `const r = -((c / 2) * m)` computed in the
underdamped branch of `Spring._solve`. -/
noncomputable def underdampedR (m c : ℝ) : ℝ := -(c / 2 * m)

/-- The frequency `const w = Math.sqrt(4 * m * k - c * c) / (2 * m)` computed
in the underdamped branch of `Spring._solve`. -/
noncomputable def underdampedW (m k c : ℝ) : ℝ :=
  Real.sqrt (4 * m * k - c * c) / (2 * m)

/-- Embedding of `Spring._solve(initial, velocity)` for a spring with mass
`m`, spring constant `k` and damping `c`.  The three branches (discriminant
`cmk = c*c - 4*m*k` zero / positive / negative) and every coefficient are
transcribed verbatim from the source. -/
noncomputable def solveFun (m k c initial velocity : ℝ) : Solution :=
  let cmk := c * c - 4 * m * k
  if cmk = 0 then
    -- critically damped
    let r := -c / (2 * m)
    let c1 := initial
    let c2 := velocity / (r * initial)
    { x := fun t => (c1 + c2 * t) * Real.exp (r * t)
      dx := fun t => r * (c1 + c2 * t) * Real.exp (r * t) + c2 * Real.exp (r * t) }
  else if cmk > 0 then
    -- overdamped
    let r1 := (-c - Real.sqrt cmk) / (2 * m)
    let r2 := (-c + Real.sqrt cmk) / (2 * m)
    let c2 := (velocity - r1 * initial) / (r2 - r1)
    let c1 := initial - c2
    { x := fun t => c1 * Real.exp (r1 * t) + c2 * Real.exp (r2 * t)
      dx := fun t => c1 * r1 * Real.exp (r1 * t) + c2 * r2 * Real.exp (r2 * t) }
  else
    -- underdamped
    let w := Real.sqrt (4 * m * k - c * c) / (2 * m)
    let r := -(c / 2 * m)
    let c1 := initial
    let c2 := (velocity - r * initial) / w
    { x := fun t =>
        Real.exp (r * t) * (c1 * Real.cos (w * t) + c2 * Real.sin (w * t))
      dx := fun t =>
        Real.exp (r * t) * (c2 * w * Real.cos (w * t) - c1 * w * Real.sin (w * t)) +
          r * Real.exp (r * t) * (c2 * Real.sin (w * t) + c1 * Real.cos (w * t)) }

/-- The mutable state of a `Spring` instance: `_m`, `_k`, `_c`, `_solution`,
`_endValue`, `_startTime`. -/
structure Spring where
  m : ℝ
  k : ℝ
  c : ℝ
  solution : Option Solution
  endValue : ℝ
  startTime : ℝ

/-- `new Spring(springConstant, damping, mass)`. -/
def Spring.construct (springConstant damping mass : ℝ) : Spring :=
  { m := mass, k := springConstant, c := damping
    solution := none, endValue := 0, startTime := 0 }

/-- `Spring.x(dt)` with an explicit `dt` argument (seconds since
`_startTime`): `this._solution ? this._endValue + this._solution.x(dt) : 0`. -/
noncomputable def Spring.x (s : Spring) (dt : ℝ) : ℝ :=
  match s.solution with
  | some sol => s.endValue + sol.x dt
  | none => 0

/-- `Spring.x()` with the defaulted argument
`dt = (now - this._startTime) / 1000`. -/
noncomputable def Spring.xClock (s : Spring) (now : ℝ) : ℝ :=
  s.x ((now - s.startTime) / 1000)

/-- `Spring.dx(dt)` with an explicit `dt` argument. -/
noncomputable def Spring.dx (s : Spring) (dt : ℝ) : ℝ :=
  match s.solution with
  | some sol => sol.dx dt
  | none => 0

/-- `Spring.dx()` with the defaulted argument. -/
noncomputable def Spring.dxClock (s : Spring) (now : ℝ) : ℝ :=
  s.dx ((now - s.startTime) / 1000)

/-- `Spring.done(t)`.  The source computes the default for `t` but then
calls `this.x()` and `this.dx()` with no argument, so both samples are taken
at the ambient wall clock `now`; the parameter `t` is never used. -/
def Spring.done (s : Spring) (_t now : ℝ) : Prop :=
  almostEqual (s.xClock now) s.endValue ∧ almostZero (s.dxClock now)

open Classical in
/-- `Spring.setEnd(endValue, velocity, t)` with the wall clock `now` passed
explicitly (used for the `if (!t) t = ...` default). -/
noncomputable def Spring.setEnd (s : Spring) (endValue velocity t now : ℝ) : Spring :=
  let t1 := if t = 0 then now else t
  if endValue = s.endValue ∧ almostZero velocity then s
  else
    let pv : ℝ × ℝ :=
      match s.solution with
      | none => (s.endValue, velocity)
      | some sol =>
          let dt := (t1 - s.startTime) / 1000
          let v1 := if almostZero velocity then sol.dx dt else velocity
          let p1 := sol.x dt
          let v2 := if almostZero v1 then 0 else v1
          let p2 := if almostZero p1 then 0 else p1
          (p2 + s.endValue, v2)
    if s.solution.isSome ∧ almostZero (pv.1 - endValue) ∧ almostZero pv.2 then s
    else
      { s with
        endValue := endValue
        solution := some (solveFun s.m s.k s.c (pv.1 - endValue) pv.2)
        startTime := t1 }

/-- `Spring.snap(endValue)`: installs the constant solution
`{x: () => 0, dx: () => 0}` and resets `_startTime` to the wall clock. -/
def Spring.snap (s : Spring) (endValue now : ℝ) : Spring :=
  { s with
    startTime := now
    endValue := endValue
    solution := some { x := fun _ => 0, dx := fun _ => 0 } }

open Classical in
/-- `Spring.reconfigure(mass, springConstant, damping)` with the wall clock
`now` passed explicitly. -/
noncomputable def Spring.reconfigure (s : Spring) (mass springConstant damping now : ℝ) :
    Spring :=
  let s1 : Spring := { s with m := mass, k := springConstant, c := damping }
  if s1.done now now then s1
  else
    { s1 with
      solution :=
        some (solveFun mass springConstant damping (s1.xClock now - s1.endValue)
          (s1.dxClock now))
      startTime := now }

/-- The invariant relating the absent solution to the equilibrium: whenever
`_solution` is `null`, `_endValue` is `0`. -/
def Spring.nullInv (s : Spring) : Prop := s.solution = none → s.endValue = 0

/-! ## The animation driver (`runAnimation` / `processFrame` / `cancel`)

The driver is modelled operationally.  A `Handle` tracks the `cancelled`
flag and whether a `requestAnimationFrame` callback is pending.  After the
synchronous first `processFrame` call made by `runAnimation`, the
environment performs a sequence of actions: firing the pending frame
callback (during which the caller's `onFrame` may or may not invoke
`cancel`) or calling `cancel` on the handle.  Observable events are the
invocations of `onFrame` and `onFinish`. -/

/-- The `handle` object `{id, cancelled}` of the driver; `scheduled` records
whether a `requestAnimationFrame` callback is currently pending. -/
structure Handle where
  cancelled : Bool
  scheduled : Bool
deriving DecidableEq

/-- Observable callback invocations of the driver. -/
inductive Ev where
  | frame
  | finish
deriving DecidableEq

/-- Environment actions after `runAnimation` returns: `fire` delivers the
pending frame callback (`cancelInFrame` says whether the caller's `onFrame`
invokes `cancel` during that callback), `cancel` invokes the handle's
`cancel` between frames. -/
inductive Act where
  | fire (cancelInFrame : Bool)
  | cancel
deriving DecidableEq

/-- One `processFrame(handle, physicsModel, onFrame, onFinish)` body: `d` is
the value of `physicsModel.done()` for this frame, `hasFinish` whether an
`onFinish` callback was supplied.  Returns the updated handle and the list
of callback invocations, in order. -/
def processFrame (h : Handle) (d cancelInFrame hasFinish : Bool) : Handle × List Ev :=
  if h.cancelled then (h, [])
  else
    let h1 : Handle := { h with cancelled := h.cancelled || cancelInFrame }
    if !d && !h1.cancelled then
      ({ h1 with scheduled := true }, [Ev.frame])
    else
      (h1, Ev.frame :: (if hasFinish then [Ev.finish] else []))

/-- `cancel(handle)`: withdraws any pending frame and marks the handle. -/
def cancelHandle (h : Handle) : Handle :=
  { h with cancelled := true, scheduled := false }

/-- One environment action.  The state carries the handle and the number of
frames processed so far (used to index the model's `done()` answers). -/
def runAct (done : ℕ → Bool) (hasFinish : Bool) :
    Act → Handle × ℕ → (Handle × ℕ) × List Ev
  | Act.cancel, (h, n) => ((cancelHandle h, n), [])
  | Act.fire cif, (h, n) =>
      if h.scheduled then
        let r := processFrame { h with scheduled := false } (done n) cif hasFinish
        ((r.1, n + 1), r.2)
      else ((h, n), [])

/-- A sequence of environment actions. -/
def runActs (done : ℕ → Bool) (hasFinish : Bool) :
    List Act → Handle × ℕ → (Handle × ℕ) × List Ev
  | [], st => (st, [])
  | a :: rest, st =>
      let r1 := runAct done hasFinish a st
      let r2 := runActs done hasFinish rest r1.1
      (r2.1, r1.2 ++ r2.2)

/-- `runAnimation(physicsModel, onFrame, onFinish)`: creates the handle
`{id: 0, cancelled: false}` and immediately (synchronously) runs
`processFrame` once.  The caller has no reference to the handle during this
first frame, so its `onFrame` cannot cancel it. -/
def runAnimation (done : ℕ → Bool) (hasFinish : Bool) : (Handle × ℕ) × List Ev :=
  let r := processFrame { cancelled := false, scheduled := false } (done 0) false hasFinish
  ((r.1, 1), r.2)

/-- The full observable trace of a `runAnimation` call followed by a
sequence of environment actions. -/
def animTrace (done : ℕ → Bool) (hasFinish : Bool) (acts : List Act) : List Ev :=
  (runAnimation done hasFinish).2 ++
    (runActs done hasFinish acts (runAnimation done hasFinish).1).2

/-! ## Helper lemmas -/

/-- From a state with no pending frame, no environment action ever produces
an event: `fire` finds nothing scheduled, `cancel` schedules nothing. -/
theorem runActs_unscheduled (done : ℕ → Bool) (hasFinish : Bool) (acts : List Act)
    (st : Handle × ℕ) (h : st.1.scheduled = false) :
    (runActs done hasFinish acts st).2 = [] := by
  induction acts generalizing st with
  | nil => rfl
  | cons a rest ih =>
      cases a with
      | cancel =>
          simp only [runActs, runAct]
          rw [ih (cancelHandle st.1, st.2) rfl]
          simp
      | fire cif =>
          obtain ⟨⟨hc, hs⟩, n⟩ := st
          simp only at h
          subst h
          simp only [runActs, runAct, if_neg (by simp : ¬(false = true))]
          rw [ih _ rfl]
          simp

/-- `almostZero 0` holds. -/
theorem almostZero_zero : almostZero (0 : ℝ) := by
  norm_num [almostZero, almostEqual, EPSILON]

/-- The null-solution invariant passes through a conditional. -/
theorem nullInv_ite (c : Prop) (inst : Decidable c) (a b : Spring)
    (ha : a.nullInv) (hb : b.nullInv) : (ite c a b).nullInv := by
  by_cases h : c
  · rwa [if_pos h]
  · rwa [if_neg h]

/-! ## Claims about the animation driver -/

/-- Claim C2, counterexample: the first frame is executed synchronously
inside `runAnimation`, before the handle is ever returned to the caller, so
cancelling at the earliest possible moment (the very first action after
`runAnimation` returns) still leaves one `onFrame` invocation — the claimed
zero invocations are impossible. -/
theorem animTrace_earliest_cancel_counterexample :
    (animTrace (fun _ => false) true [Act.cancel]).count Ev.frame ≠ 0 := by
  decide

/-- Claim C2 (amended): after a `cancel()` between frames, no further
`onFrame` or `onFinish` invocation ever occurs for the handle; the first
frame, however, runs synchronously inside `runAnimation` and always invokes
`onFrame` exactly once; and when `cancel` is invoked from inside the
`onFrame` callback of a running frame, `onFinish` still fires at the end of
that same frame. -/
theorem cancel_no_further_events (done : ℕ → Bool) (hasFinish : Bool)
    (acts : List Act) (st : Handle × ℕ) :
    (runActs done hasFinish acts ((runAct done hasFinish Act.cancel st).1)).2 = []
  ∧ (runAnimation done hasFinish).2.count Ev.frame = 1
  ∧ (runAct (fun _ => false) true (Act.fire true)
        ({ cancelled := false, scheduled := true }, 0)).2 = [Ev.frame, Ev.finish] := by
  refine ⟨?_, ?_, rfl⟩
  · exact runActs_unscheduled done hasFinish acts _ rfl
  · unfold runAnimation processFrame
    cases hd : done 0 <;> cases hasFinish <;> simp [hd]

/-- Claim C7: for a model whose `done()` is true on the first frame, the
whole run invokes `onFrame` exactly once and `onFinish` exactly once, and
leaves no frame scheduled, whatever the environment does afterwards. -/
theorem done_immediately_one_frame (done : ℕ → Bool) (acts : List Act)
    (h : done 0 = true) :
    (animTrace done true acts).count Ev.frame = 1
  ∧ (animTrace done true acts).count Ev.finish = 1
  ∧ (runAnimation done true).1.1.scheduled = false := by
  have hrun : runAnimation done true
      = (({ cancelled := false, scheduled := false }, 1), [Ev.frame, Ev.finish]) := by
    unfold runAnimation processFrame
    simp [h]
  have hacts : (runActs done true acts (runAnimation done true).1).2 = [] := by
    exact runActs_unscheduled done true acts _ (by rw [hrun])
  unfold animTrace
  rw [hrun] at hacts ⊢
  simp [hacts]

/-- Witness for C7 at the model that is done immediately, with an empty
environment schedule. -/
theorem done_immediately_one_frame_witness :
    ((fun _ : ℕ => true) 0 = true)
  ∧ ((animTrace (fun _ => true) true []).count Ev.frame = 1
      ∧ (animTrace (fun _ => true) true []).count Ev.finish = 1
      ∧ (runAnimation (fun _ => true) true).1.1.scheduled = false) :=
  ⟨rfl, done_immediately_one_frame (fun _ => true) [] rfl⟩

/-! ## Claims about the Spring state machine -/

/-- Claim C4, counterexample: on a freshly constructed spring, `done()`
returns `true`, not `false` — position 0 is within `EPSILON` of
`endValue = 0` and velocity 0 is within `EPSILON` of 0. -/
theorem construct_done_counterexample : (Spring.construct 230 30 1).done 0 5 :=
  ⟨almostZero_zero, almostZero_zero⟩

/-- Claim C4 (amended): on a freshly constructed spring, before any
`setEnd`/`snap`, `x()` and `dx()` return 0 (zero position relative to
`endValue = 0`, zero velocity) and `done()` returns `true`: the fresh spring
already counts as settled at its default equilibrium 0. -/
theorem construct_defaults (k c m t now dt : ℝ) :
    (Spring.construct k c m).x dt = 0
  ∧ (Spring.construct k c m).dx dt = 0
  ∧ (Spring.construct k c m).endValue = 0
  ∧ (Spring.construct k c m).done t now :=
  ⟨rfl, rfl, rfl, almostZero_zero, almostZero_zero⟩

/-- Claim C8: immediately after `snap(v)`, the position is `v` and the
velocity is `0` — in fact at every elapsed time, since the installed
solution is constantly zero — any in-flight motion is discarded and
`startTime` is reset to the wall clock. -/
theorem snap_exact (s : Spring) (v now dt : ℝ) :
    (s.snap v now).x dt = v
  ∧ (s.snap v now).dx dt = 0
  ∧ (s.snap v now).endValue = v
  ∧ (s.snap v now).startTime = now := by
  refine ⟨?_, rfl, rfl, rfl⟩
  show v + 0 = v
  norm_num

/-- Claim C9: `setEnd(v, 0)` on a spring that is already settled at `v`
(solution present, `done()` true, `endValue = v`) is a no-op — the guard
`endValue === this._endValue && almostZero(velocity)` returns immediately —
and so is a second call; `solution` and `startTime` are unchanged exactly,
not merely within `EPSILON`. -/
theorem setEnd_idempotent (s : Spring) (v t now t' now' tq nq : ℝ)
    (hend : s.endValue = v) (_hsol : s.solution.isSome) (_hdone : s.done tq nq) :
    s.setEnd v 0 t now = s ∧ (s.setEnd v 0 t now).setEnd v 0 t' now' = s := by
  have h1 : ∀ u u', s.setEnd v 0 u u' = s := by
    intro u u'
    simp only [Spring.setEnd]
    rw [if_pos ⟨hend.symm, almostZero_zero⟩]
  exact ⟨h1 t now, by rw [h1 t now]; exact h1 t' now'⟩

/-- Witness for C9: the spring `snap(5)` is settled at 5 with a solution
present, and `setEnd(5, 0)` twice leaves it unchanged. -/
theorem setEnd_idempotent_witness :
    (((Spring.construct 230 30 1).snap 5 100).endValue = 5
      ∧ ((Spring.construct 230 30 1).snap 5 100).solution.isSome
      ∧ ((Spring.construct 230 30 1).snap 5 100).done 0 100)
  ∧ (((Spring.construct 230 30 1).snap 5 100).setEnd 5 0 200 200
        = (Spring.construct 230 30 1).snap 5 100
      ∧ ((((Spring.construct 230 30 1).snap 5 100).setEnd 5 0 200 200).setEnd 5 0 300 300
        = (Spring.construct 230 30 1).snap 5 100)) := by
  have hdone : ((Spring.construct 230 30 1).snap 5 100).done 0 100 := by
    refine ⟨?_, almostZero_zero⟩
    show almostEqual (5 + 0) 5
    norm_num [almostEqual, EPSILON]
  exact ⟨⟨rfl, rfl, hdone⟩,
    setEnd_idempotent ((Spring.construct 230 30 1).snap 5 100) 5 200 200 300 300 0 100
      rfl rfl hdone⟩

/-- Claim C10: the invariant "`_solution` absent implies `_endValue = 0`" is
established by the constructor and preserved by `setEnd`, `snap` and
`reconfigure`; consequently the literal 0 returned by `x()` in the
no-solution case coincides with `endValue + 0`. -/
theorem nullInv_preserved (s : Spring) (k c m e v t now ms ks cs now' dt : ℝ)
    (hs : s.nullInv) :
    (Spring.construct k c m).nullInv
  ∧ (s.setEnd e v t now).nullInv
  ∧ (s.snap e now).nullInv
  ∧ (s.reconfigure ms ks cs now').nullInv
  ∧ (s.solution = none → s.x dt = s.endValue + 0) := by
  refine ⟨fun _ => rfl, ?_, ?_, ?_, ?_⟩
  · simp only [Spring.setEnd]
    apply nullInv_ite
    · exact hs
    · apply nullInv_ite
      · exact hs
      · intro h
        simp at h
  · intro h
    simp [Spring.snap] at h
  · simp only [Spring.reconfigure]
    split
    · intro h
      exact hs h
    · intro h
      simp at h
  · intro h
    have hx0 : s.x dt = 0 := by simp [Spring.x, h]
    rw [hx0, hs h]
    norm_num

/-- Witness for C10 on a freshly constructed spring. -/
theorem nullInv_preserved_witness :
    (Spring.construct 230 30 1).nullInv
  ∧ ((Spring.construct 230 30 1).setEnd 375 (-800) 5 5).nullInv
  ∧ ((Spring.construct 230 30 1).snap 375 5).nullInv
  ∧ ((Spring.construct 230 30 1).reconfigure 2 100 10 5).nullInv
  ∧ ((Spring.construct 230 30 1).solution = none
      → (Spring.construct 230 30 1).x 3 = (Spring.construct 230 30 1).endValue + 0) :=
  nullInv_preserved (Spring.construct 230 30 1) 230 30 1 375 (-800) 5 5 2 100 10 5 3
    (fun _ => rfl)

/-! ## Helper lemmas for the closed-form branches -/

/-- On a freshly constructed spring, `setEnd(e, v, t)` with `e ≠ 0` takes the
solve path: relative initial position `0 - e`, the passed velocity, and
`startTime` from `t` (defaulted to `now` when `t` is falsy). -/
theorem setEnd_fresh (k c m e v t now : ℝ) (he : ¬(e = 0)) :
    (Spring.construct k c m).setEnd e v t now
      = { m := m, k := k, c := c, solution := some (solveFun m k c (0 - e) v),
          endValue := e, startTime := if t = 0 then now else t } := by
  simp only [Spring.setEnd, Spring.construct]
  rw [if_neg (fun hc => he hc.1)]
  simp

/-- `exp 10 > 4000`. -/
theorem exp_ten_gt : (4000 : ℝ) < Real.exp 10 := by
  have h1 : (2.7 : ℝ) < Real.exp 1 := lt_trans (by norm_num) Real.exp_one_gt_d9
  have h2 : (2.7 : ℝ) ^ 10 < Real.exp 1 ^ 10 :=
    pow_lt_pow_left₀ h1 (by norm_num) (by norm_num)
  have h3 : Real.exp 1 ^ 10 = Real.exp 10 := by
    rw [← Real.exp_nat_mul]
    norm_num
  nlinarith [h2]

/-- `exp (-10) < 1/4000`. -/
theorem exp_neg_ten_small : Real.exp (-10) < 1 / 4000 := by
  rw [Real.exp_neg]
  calc (Real.exp 10)⁻¹ = 1 / Real.exp 10 := by rw [one_div]
    _ < 1 / 4000 := one_div_lt_one_div_of_lt (by norm_num) exp_ten_gt

/-- `exp (-20) < 1/4000`. -/
theorem exp_neg_twenty_small : Real.exp (-20) < 1 / 4000 :=
  lt_of_le_of_lt (Real.exp_le_exp.mpr (by norm_num)) exp_neg_ten_small

/-! ## Claims about `_solve` and the sampled trajectories -/

/-- Claim C1: with `c² = 4mk` exactly (`m = 1`, `k = 1`, `c = 2`) the
critically damped branch is selected, but its coefficient
`c2 = velocity / (r * initial)` divides by `critDenominator m c initial`,
which is zero for initial position 0: the produced solution for
`initial = 0`, `velocity = 1` is literally
`x(t) = (0 + 1 / critDenominator(1,2,0) · t) · e^(-c/(2m)·t)` with
`critDenominator 1 2 0 = 0` — in JavaScript a division by zero yielding
`Infinity`, and `NaN` at `t = 0`.  This refutes the claimed absence of a
division by zero. -/
theorem critically_damped_divide_by_zero :
    ((2 : ℝ) * 2 - 4 * 1 * 1 = 0)
  ∧ critDenominator 1 2 0 = 0
  ∧ (∀ t, (solveFun 1 1 2 0 1).x t
        = (0 + 1 / critDenominator 1 2 0 * t) * Real.exp (-2 / (2 * 1) * t)) := by
  have h0 : (2 : ℝ) * 2 - 4 * 1 * 1 = 0 := by norm_num
  refine ⟨h0, by norm_num [critDenominator], fun t => ?_⟩
  simp only [solveFun]
  rw [if_pos h0]
  simp only [critDenominator]

/-- Claim C5: in the underdamped branch the code computes the exponential
rate as `r = -((c / 2) * m)` rather than the claimed `-c/(2m)`: for `m = 2`,
`k = 1`, `c = 1` (discriminant `c² - 4mk = -7 < 0`) the produced solution is
`x(t) = e^(rt)(c1·cos(ωt) + c2·sin(ωt))` with `r = underdampedR 2 1 = -1`,
whereas the claimed rate is `-c/(2m) = -1/4 ≠ -1`. -/
theorem underdamped_rate_mismatch :
    ((1 : ℝ) * 1 - 4 * 2 * 1 < 0)
  ∧ (∀ t, (solveFun 2 1 1 1 0).x t
        = Real.exp (underdampedR 2 1 * t)
            * (1 * Real.cos (underdampedW 2 1 1 * t)
                + (0 - underdampedR 2 1 * 1) / underdampedW 2 1 1
                    * Real.sin (underdampedW 2 1 1 * t)))
  ∧ underdampedR 2 1 = -1
  ∧ -(1 : ℝ) / (2 * 2) ≠ -1 := by
  have hne : ¬((1 : ℝ) * 1 - 4 * 2 * 1 = 0) := by norm_num
  have hng : ¬((1 : ℝ) * 1 - 4 * 2 * 1 > 0) := by norm_num
  refine ⟨by norm_num, fun t => ?_, by norm_num [underdampedR], by norm_num⟩
  simp only [solveFun]
  rw [if_neg hne, if_neg hng]
  simp only [underdampedR, underdampedW]

/-- Claim C6: sampled velocity is not continuous across a retarget in the
critically damped regime.  `Spring(springConstant = 1, damping = 2,
mass = 1)` is critically damped (`c² = 4mk`); on the fresh spring,
`setEnd(1, 0, t = 1)` jumps the sampled velocity at the retarget instant
from 0 to 1 — a jump far above `EPSILON` — because the branch coefficient
`c2 = velocity / (r * initial)` does not satisfy the boundary condition
`dx(0) = velocity`. -/
theorem setEnd_velocity_discontinuity :
    (Spring.construct 1 2 1).dxClock 1 = 0
  ∧ ((Spring.construct 1 2 1).setEnd 1 0 1 1).dxClock 1 = 1
  ∧ ¬almostZero (((Spring.construct 1 2 1).setEnd 1 0 1 1).dxClock 1
        - (Spring.construct 1 2 1).dxClock 1) := by
  have hs1 := setEnd_fresh 1 2 1 1 0 1 1 (by norm_num)
  have hsol : (solveFun 1 1 2 (0 - 1) 0).dx 0 = 1 := by
    have h0 : (2 : ℝ) * 2 - 4 * 1 * 1 = 0 := by norm_num
    simp only [solveFun]
    rw [if_pos h0]
    norm_num
  have hmain : ((Spring.construct 1 2 1).setEnd 1 0 1 1).dxClock 1 = 1 := by
    rw [hs1]
    show (solveFun 1 1 2 (0 - 1) 0).dx ((1 - if (1 : ℝ) = 0 then 1 else 1) / 1000) = 1
    rw [if_neg (by norm_num : ¬((1 : ℝ) = 0))]
    rw [show ((1 : ℝ) - 1) / 1000 = 0 by norm_num]
    exact hsol
  refine ⟨rfl, hmain, ?_⟩
  rw [hmain, show (Spring.construct 1 2 1).dxClock 1 = 0 from rfl]
  norm_num [almostZero, almostEqual, EPSILON]

/-- Claim C3: `done(t)` does not evaluate at the supplied time `t` — it
samples `x()`/`dx()` at the ambient wall clock.  The fresh spring
`Spring(2, 3)` retargeted by `setEnd(1, 0)` at time 0 is overdamped and has
decayed to its target by elapsed time 10 s; queried as `done(10000)` (10000
ms) while the wall clock still reads 0, the code returns false, although
position and velocity at the supplied time are within `EPSILON` of target
and zero. -/
theorem done_ignores_supplied_time :
    ¬(((Spring.construct 2 3 1).setEnd 1 0 0 0).done 10000 0)
  ∧ almostEqual (((Spring.construct 2 3 1).setEnd 1 0 0 0).xClock 10000)
      ((Spring.construct 2 3 1).setEnd 1 0 0 0).endValue
  ∧ almostZero (((Spring.construct 2 3 1).setEnd 1 0 0 0).dxClock 10000) := by
  have hs0 : (Spring.construct 2 3 1).setEnd 1 0 0 0
      = { m := 1, k := 2, c := 3, solution := some (solveFun 1 2 3 (0 - 1) 0),
          endValue := 1, startTime := 0 } := by
    rw [setEnd_fresh 2 3 1 1 0 0 0 (by norm_num)]
    norm_num
  have hxu : ∀ u, (solveFun 1 2 3 (0 - 1) 0).x u
      = Real.exp (-2 * u) - 2 * Real.exp (-1 * u) := by
    intro u
    simp only [solveFun]
    rw [show ((3 : ℝ) * 3 - 4 * 1 * 2) = 1 from by norm_num]
    rw [if_neg (by norm_num : ¬((1 : ℝ) = 0)), if_pos (by norm_num : (1 : ℝ) > 0)]
    rw [Real.sqrt_one]
    norm_num
    ring_nf
  have hdxu : ∀ u, (solveFun 1 2 3 (0 - 1) 0).dx u
      = -2 * Real.exp (-2 * u) + 2 * Real.exp (-1 * u) := by
    intro u
    simp only [solveFun]
    rw [show ((3 : ℝ) * 3 - 4 * 1 * 2) = 1 from by norm_num]
    rw [if_neg (by norm_num : ¬((1 : ℝ) = 0)), if_pos (by norm_num : (1 : ℝ) > 0)]
    rw [Real.sqrt_one]
    norm_num
  have h10 : ((10000 : ℝ) - 0) / 1000 = 10 := by norm_num
  have h00 : ((0 : ℝ) - 0) / 1000 = 0 := by norm_num
  have hxclock : ((Spring.construct 2 3 1).setEnd 1 0 0 0).xClock 10000
      = 1 + (Real.exp (-20) - 2 * Real.exp (-10)) := by
    rw [hs0]
    show (1 : ℝ) + (solveFun 1 2 3 (0 - 1) 0).x (((10000 : ℝ) - 0) / 1000) = _
    rw [h10, hxu 10]
    norm_num
  have hxclock0 : ((Spring.construct 2 3 1).setEnd 1 0 0 0).xClock 0 = 0 := by
    rw [hs0]
    show (1 : ℝ) + (solveFun 1 2 3 (0 - 1) 0).x (((0 : ℝ) - 0) / 1000) = 0
    rw [h00, hxu 0]
    norm_num [Real.exp_zero]
  have hdxclock : ((Spring.construct 2 3 1).setEnd 1 0 0 0).dxClock 10000
      = -2 * Real.exp (-20) + 2 * Real.exp (-10) := by
    rw [hs0]
    show (solveFun 1 2 3 (0 - 1) 0).dx (((10000 : ℝ) - 0) / 1000) = _
    rw [h10, hdxu 10]
    norm_num
  have hend : ((Spring.construct 2 3 1).setEnd 1 0 0 0).endValue = 1 := by rw [hs0]
  have hE10 := exp_neg_ten_small
  have hE20 := exp_neg_twenty_small
  have hP10 := Real.exp_pos (-10 : ℝ)
  have hP20 := Real.exp_pos (-20 : ℝ)
  refine ⟨?_, ?_, ?_⟩
  · intro hd
    obtain ⟨h1, -⟩ := hd
    rw [hxclock0, hend] at h1
    have := h1.1
    norm_num [EPSILON] at this
  · rw [hxclock, hend]
    refine ⟨?_, ?_⟩ <;> simp only [EPSILON] <;> norm_num <;>
      linarith [hE10, hE20, hP10, hP20]
  · rw [hdxclock]
    refine ⟨?_, ?_⟩ <;> simp only [EPSILON] <;> norm_num <;>
      linarith [hE10, hE20, hP10, hP20]
